import Mathlib

/-!
Shallow embedding of `src/gcode_generator.py` (class `GCodeGenerator`).

Machine coordinates are embedded as rationals (the Python code stores the
float arguments unchanged and only rounds when formatting text), the
instruction log as a `List String`, and the segment log as a `List Segment`.
The renderer (`get_svg`) is embedded at the level of a structured SVG
document: element geometry is computed exactly as in the source (over `ℝ`,
since arc geometry uses square roots and `atan2`), while the final textual
serialization of real numbers is not modelled.
-/

/-- The `current_position` dictionary: keys x, y, z. -/
structure MachinePosition where
  x : ℚ
  y : ℚ
  z : ℚ
deriving DecidableEq

/-- The `center_offset` dictionary stored with arc segments: keys i, j, k. -/
structure CenterOffset where
  i : ℚ
  j : ℚ
  k : ℚ
deriving DecidableEq

/-- The `type` tag of a `path_history` entry. -/
inductive MoveType where
  | rapid
  | linear
  | arc_cw
  | arc_ccw
deriving DecidableEq

/-- One `path_history` entry.  Rapid/linear entries carry no
`center_offset` key in the source dictionaries, hence the `Option`. -/
structure Segment where
  type : MoveType
  start : MachinePosition
  end_ : MachinePosition
  center_offset : Option CenterOffset
deriving DecidableEq

/-- `f"{v:.prec f}"`: fixed-point decimal formatting with `prec` fractional
digits, used with 4 digits for coordinates/offsets and 2 for feeds/dwell. -/
def fmtFixed (prec : Nat) (v : ℚ) : String :=
  let n : ℤ := round (v * (10 : ℚ) ^ prec)
  let sign := if n < 0 then "-" else ""
  let mag := n.natAbs
  let ipart := mag / 10 ^ prec
  let fpart := mag % 10 ^ prec
  let fs := toString fpart
  let pad := String.mk (List.replicate (prec - fs.length) '0')
  sign ++ toString ipart ++ "." ++ pad ++ fs

/-- The state of one `GCodeGenerator` instance: instruction log,
current machine position, segment log. -/
structure GCodeGenerator where
  commands : List String
  current_position : MachinePosition
  path_history : List Segment
deriving DecidableEq

namespace GCodeGenerator

/-- `__init__`: empty logs, position at the origin. -/
def init : GCodeGenerator :=
  { commands := [], current_position := ⟨0, 0, 0⟩, path_history := [] }

/-- `add_comment(text)` -/
def add_comment (g : GCodeGenerator) (text : String) : GCodeGenerator :=
  if text ≠ "" then
    { g with commands := g.commands ++ ["; " ++ text] }
  else
    { g with commands := g.commands ++ [""] }

/-- `set_units_metric()` -/
def set_units_metric (g : GCodeGenerator) : GCodeGenerator :=
  { g with commands := g.commands ++ ["G21 ; Set units to millimeters"] }

/-- `set_units_imperial()` -/
def set_units_imperial (g : GCodeGenerator) : GCodeGenerator :=
  { g with commands := g.commands ++ ["G20 ; Set units to inches"] }

/-- `set_absolute_positioning()` -/
def set_absolute_positioning (g : GCodeGenerator) : GCodeGenerator :=
  { g with commands := g.commands ++ ["G90 ; Set absolute positioning mode"] }

/-- `set_relative_positioning()` -/
def set_relative_positioning (g : GCodeGenerator) : GCodeGenerator :=
  { g with commands := g.commands ++ ["G91 ; Set relative positioning mode"] }

/-- `home_all_axes()` -/
def home_all_axes (g : GCodeGenerator) : GCodeGenerator :=
  { g with commands := g.commands ++ ["$H ; Home all axes"] }

/-- `rapid_move(x, y, z)` (G0).  The three axis blocks accumulate the
coordinate tokens, the comment parts and the updated position in source
order; the instruction and the segment are appended only if at least one
token was produced. -/
def rapid_move (g : GCodeGenerator) (x y z : Option ℚ) : GCodeGenerator :=
  let start_pos := g.current_position
  let coords : List String := []
  let comment_parts : List String := []
  let pos := g.current_position
  let (coords, comment_parts, pos) :=
    match x with
    | some v => (coords ++ ["X" ++ fmtFixed 4 v], comment_parts ++ ["X=" ++ fmtFixed 4 v],
        { pos with x := v })
    | none => (coords, comment_parts, pos)
  let (coords, comment_parts, pos) :=
    match y with
    | some v => (coords ++ ["Y" ++ fmtFixed 4 v], comment_parts ++ ["Y=" ++ fmtFixed 4 v],
        { pos with y := v })
    | none => (coords, comment_parts, pos)
  let (coords, comment_parts, pos) :=
    match z with
    | some v => (coords ++ ["Z" ++ fmtFixed 4 v], comment_parts ++ ["Z=" ++ fmtFixed 4 v],
        { pos with z := v })
    | none => (coords, comment_parts, pos)
  if coords.isEmpty then
    { g with current_position := pos }
  else
    let coord_str := String.intercalate " " coords
    let comment := "Rapid move to " ++ String.intercalate ", " comment_parts
    { commands := g.commands ++ ["G0 " ++ coord_str ++ " ; " ++ comment]
      current_position := pos
      path_history := g.path_history ++
        [{ type := MoveType.rapid, start := start_pos, end_ := pos, center_offset := none }] }

/-- `linear_move(x, y, z, feed_rate)` (G1).  Identical to `rapid_move` on
the axes; a provided feed rate adds an `F` token (and so makes `coords`
nonempty) but never touches the position. -/
def linear_move (g : GCodeGenerator) (x y z feed_rate : Option ℚ) : GCodeGenerator :=
  let start_pos := g.current_position
  let coords : List String := []
  let comment_parts : List String := []
  let pos := g.current_position
  let (coords, comment_parts, pos) :=
    match x with
    | some v => (coords ++ ["X" ++ fmtFixed 4 v], comment_parts ++ ["X=" ++ fmtFixed 4 v],
        { pos with x := v })
    | none => (coords, comment_parts, pos)
  let (coords, comment_parts, pos) :=
    match y with
    | some v => (coords ++ ["Y" ++ fmtFixed 4 v], comment_parts ++ ["Y=" ++ fmtFixed 4 v],
        { pos with y := v })
    | none => (coords, comment_parts, pos)
  let (coords, comment_parts, pos) :=
    match z with
    | some v => (coords ++ ["Z" ++ fmtFixed 4 v], comment_parts ++ ["Z=" ++ fmtFixed 4 v],
        { pos with z := v })
    | none => (coords, comment_parts, pos)
  let (coords, comment_parts) :=
    match feed_rate with
    | some v => (coords ++ ["F" ++ fmtFixed 2 v], comment_parts ++ ["feed=" ++ fmtFixed 2 v])
    | none => (coords, comment_parts)
  if coords.isEmpty then
    { g with current_position := pos }
  else
    let coord_str := String.intercalate " " coords
    let comment := "Linear move to " ++ String.intercalate ", " comment_parts
    { commands := g.commands ++ ["G1 " ++ coord_str ++ " ; " ++ comment]
      current_position := pos
      path_history := g.path_history ++
        [{ type := MoveType.linear, start := start_pos, end_ := pos, center_offset := none }] }

/-- `arc_cw(x, y, z, i, j, k, feed_rate)` (G2).  The i/j/k blocks add
tokens but never update the position; the recorded segment stores
`(i or 0, j or 0, k or 0)` as its center offset. -/
def arc_cw (g : GCodeGenerator) (x y z i j k feed_rate : Option ℚ) : GCodeGenerator :=
  let start_pos := g.current_position
  let coords : List String := []
  let comment_parts : List String := []
  let pos := g.current_position
  let (coords, comment_parts, pos) :=
    match x with
    | some v => (coords ++ ["X" ++ fmtFixed 4 v], comment_parts ++ ["X=" ++ fmtFixed 4 v],
        { pos with x := v })
    | none => (coords, comment_parts, pos)
  let (coords, comment_parts, pos) :=
    match y with
    | some v => (coords ++ ["Y" ++ fmtFixed 4 v], comment_parts ++ ["Y=" ++ fmtFixed 4 v],
        { pos with y := v })
    | none => (coords, comment_parts, pos)
  let (coords, comment_parts, pos) :=
    match z with
    | some v => (coords ++ ["Z" ++ fmtFixed 4 v], comment_parts ++ ["Z=" ++ fmtFixed 4 v],
        { pos with z := v })
    | none => (coords, comment_parts, pos)
  let (coords, comment_parts) :=
    match i with
    | some v => (coords ++ ["I" ++ fmtFixed 4 v], comment_parts ++ ["I=" ++ fmtFixed 4 v])
    | none => (coords, comment_parts)
  let (coords, comment_parts) :=
    match j with
    | some v => (coords ++ ["J" ++ fmtFixed 4 v], comment_parts ++ ["J=" ++ fmtFixed 4 v])
    | none => (coords, comment_parts)
  let (coords, comment_parts) :=
    match k with
    | some v => (coords ++ ["K" ++ fmtFixed 4 v], comment_parts ++ ["K=" ++ fmtFixed 4 v])
    | none => (coords, comment_parts)
  let (coords, comment_parts) :=
    match feed_rate with
    | some v => (coords ++ ["F" ++ fmtFixed 2 v], comment_parts ++ ["feed=" ++ fmtFixed 2 v])
    | none => (coords, comment_parts)
  if coords.isEmpty then
    { g with current_position := pos }
  else
    let coord_str := String.intercalate " " coords
    let comment := "Clockwise arc to " ++ String.intercalate ", " comment_parts
    { commands := g.commands ++ ["G2 " ++ coord_str ++ " ; " ++ comment]
      current_position := pos
      path_history := g.path_history ++
        [{ type := MoveType.arc_cw, start := start_pos, end_ := pos,
           center_offset := some ⟨i.getD 0, j.getD 0, k.getD 0⟩ }] }

/-- `arc_ccw(x, y, z, i, j, k, feed_rate)` (G3). -/
def arc_ccw (g : GCodeGenerator) (x y z i j k feed_rate : Option ℚ) : GCodeGenerator :=
  let start_pos := g.current_position
  let coords : List String := []
  let comment_parts : List String := []
  let pos := g.current_position
  let (coords, comment_parts, pos) :=
    match x with
    | some v => (coords ++ ["X" ++ fmtFixed 4 v], comment_parts ++ ["X=" ++ fmtFixed 4 v],
        { pos with x := v })
    | none => (coords, comment_parts, pos)
  let (coords, comment_parts, pos) :=
    match y with
    | some v => (coords ++ ["Y" ++ fmtFixed 4 v], comment_parts ++ ["Y=" ++ fmtFixed 4 v],
        { pos with y := v })
    | none => (coords, comment_parts, pos)
  let (coords, comment_parts, pos) :=
    match z with
    | some v => (coords ++ ["Z" ++ fmtFixed 4 v], comment_parts ++ ["Z=" ++ fmtFixed 4 v],
        { pos with z := v })
    | none => (coords, comment_parts, pos)
  let (coords, comment_parts) :=
    match i with
    | some v => (coords ++ ["I" ++ fmtFixed 4 v], comment_parts ++ ["I=" ++ fmtFixed 4 v])
    | none => (coords, comment_parts)
  let (coords, comment_parts) :=
    match j with
    | some v => (coords ++ ["J" ++ fmtFixed 4 v], comment_parts ++ ["J=" ++ fmtFixed 4 v])
    | none => (coords, comment_parts)
  let (coords, comment_parts) :=
    match k with
    | some v => (coords ++ ["K" ++ fmtFixed 4 v], comment_parts ++ ["K=" ++ fmtFixed 4 v])
    | none => (coords, comment_parts)
  let (coords, comment_parts) :=
    match feed_rate with
    | some v => (coords ++ ["F" ++ fmtFixed 2 v], comment_parts ++ ["feed=" ++ fmtFixed 2 v])
    | none => (coords, comment_parts)
  if coords.isEmpty then
    { g with current_position := pos }
  else
    let coord_str := String.intercalate " " coords
    let comment := "Counter-clockwise arc to " ++ String.intercalate ", " comment_parts
    { commands := g.commands ++ ["G3 " ++ coord_str ++ " ; " ++ comment]
      current_position := pos
      path_history := g.path_history ++
        [{ type := MoveType.arc_ccw, start := start_pos, end_ := pos,
           center_offset := some ⟨i.getD 0, j.getD 0, k.getD 0⟩ }] }

/-- `spindle_on_cw(rpm)` (M3). -/
def spindle_on_cw (g : GCodeGenerator) (rpm : Option ℤ) : GCodeGenerator :=
  match rpm with
  | some r =>
      { g with commands := g.commands ++
          ["M3 S" ++ toString r ++ " ; Start spindle clockwise at " ++ toString r ++ " RPM"] }
  | none =>
      { g with commands := g.commands ++ ["M3 ; Start spindle clockwise"] }

/-- `spindle_on_ccw(rpm)` (M4). -/
def spindle_on_ccw (g : GCodeGenerator) (rpm : Option ℤ) : GCodeGenerator :=
  match rpm with
  | some r =>
      { g with commands := g.commands ++
          ["M4 S" ++ toString r ++ " ; Start spindle counter-clockwise at " ++ toString r ++ " RPM"] }
  | none =>
      { g with commands := g.commands ++ ["M4 ; Start spindle counter-clockwise"] }

/-- `spindle_off()` (M5). -/
def spindle_off (g : GCodeGenerator) : GCodeGenerator :=
  { g with commands := g.commands ++ ["M5 ; Stop spindle"] }

/-- `dwell(seconds)` (G4). -/
def dwell (g : GCodeGenerator) (seconds : ℚ) : GCodeGenerator :=
  { g with commands := g.commands ++
      ["G4 P" ++ fmtFixed 2 seconds ++ " ; Dwell for " ++ fmtFixed 2 seconds ++ " seconds"] }

/-- `program_end()` (M30). -/
def program_end (g : GCodeGenerator) : GCodeGenerator :=
  { g with commands := g.commands ++ ["M30 ; End program"] }

/-- `get_gcode()`: the instruction log joined with newlines. -/
def get_gcode (g : GCodeGenerator) : String :=
  String.intercalate "\n" g.commands

/-- `clear()`: reassigns all three state fields to their initial values. -/
def clear (_g : GCodeGenerator) : GCodeGenerator :=
  { commands := [], current_position := ⟨0, 0, 0⟩, path_history := [] }

end GCodeGenerator

/-- One call to a public `GCodeGenerator` method, with its arguments. -/
inductive Op where
  | add_comment (text : String)
  | set_units_metric
  | set_units_imperial
  | set_absolute_positioning
  | set_relative_positioning
  | home_all_axes
  | rapid_move (x y z : Option ℚ)
  | linear_move (x y z feed_rate : Option ℚ)
  | arc_cw (x y z i j k feed_rate : Option ℚ)
  | arc_ccw (x y z i j k feed_rate : Option ℚ)
  | spindle_on_cw (rpm : Option ℤ)
  | spindle_on_ccw (rpm : Option ℤ)
  | spindle_off
  | dwell (seconds : ℚ)
  | program_end
  | clear

/-- Dispatch one call to the corresponding method. -/
def applyOp (g : GCodeGenerator) : Op → GCodeGenerator
  | .add_comment t => g.add_comment t
  | .set_units_metric => g.set_units_metric
  | .set_units_imperial => g.set_units_imperial
  | .set_absolute_positioning => g.set_absolute_positioning
  | .set_relative_positioning => g.set_relative_positioning
  | .home_all_axes => g.home_all_axes
  | .rapid_move x y z => g.rapid_move x y z
  | .linear_move x y z f => g.linear_move x y z f
  | .arc_cw x y z i j k f => g.arc_cw x y z i j k f
  | .arc_ccw x y z i j k f => g.arc_ccw x y z i j k f
  | .spindle_on_cw r => g.spindle_on_cw r
  | .spindle_on_ccw r => g.spindle_on_ccw r
  | .spindle_off => g.spindle_off
  | .dwell s => g.dwell s
  | .program_end => g.program_end
  | .clear => g.clear

/-- Run a sequence of calls on a generator state, in order. -/
def run (ops : List Op) (g : GCodeGenerator) : GCodeGenerator :=
  ops.foldl applyOp g

/-- Spec wording for `get_gcode`: "the full instruction log joined by
newlines, in append order" — each consecutive pair of instructions is
separated by exactly one newline. -/
def joinLinesSpec : List String → String
  | [] => ""
  | [c] => c
  | c :: d :: rest => c ++ "\n" ++ joinLinesSpec (d :: rest)

/-- `chained p l q`: the segments of `l` form a contiguous chain that
starts at `p` and ends at `q` (each segment starts where the previous one
ended). -/
def chained : MachinePosition → List Segment → MachinePosition → Prop
  | p, [], q => p = q
  | p, s :: rest, q => s.start = p ∧ chained s.end_ rest q

/-- The state invariant behind claim C9: the segment log chains from the
origin to the current machine position. -/
def EmitterInv (g : GCodeGenerator) : Prop :=
  chained ⟨0, 0, 0⟩ g.path_history g.current_position

/-- A small concrete call sequence used to instantiate universally
quantified theorems. -/
def demoOps : List Op :=
  [Op.rapid_move (some 1) (some 2) none, Op.linear_move (some 3) none none (some 500)]

/-- A concrete full-circle clockwise arc segment whose center offset has a
nonzero k component: offsets (i, j, k) = (3, 0, 4). -/
def arcDemoSeg : Segment :=
  { type := MoveType.arc_cw, start := ⟨0, 0, 0⟩, end_ := ⟨0, 0, 0⟩,
    center_offset := some ⟨3, 0, 4⟩ }

/-- A concrete clockwise arc from angle 0 to angle π/2 around center
(0, 0): going clockwise from (1, 0) to (0, 1) sweeps 3π/2. -/
def arcQuarterSeg : Segment :=
  { type := MoveType.arc_cw, start := ⟨1, 0, 0⟩, end_ := ⟨0, 1, 0⟩,
    center_offset := some ⟨-1, 0, 0⟩ }

/-- `math.atan2(y, x)`: the argument of the complex number `x + y*I`,
in `(-π, π]`. -/
noncomputable def atan2 (y x : ℝ) : ℝ :=
  Complex.arg ⟨x, y⟩

/-- The two normalization `while` loops of `get_svg` as a total function:
`while a < 0: a += 2π` followed by `while a > 2π: a -= 2π`. -/
noncomputable def normalizeAngle (a : ℝ) : ℝ :=
  if a < 0 then a - 2 * Real.pi * (⌊a / (2 * Real.pi)⌋ : ℝ)
  else if a > 2 * Real.pi then a - 2 * Real.pi * ((⌈a / (2 * Real.pi)⌉ : ℝ) - 1)
  else a

/-- One drawing element of the produced SVG body, in document order:
a `<line>`, an arc `<path>`, or a marker `<circle>`.  Geometry fields hold
the exact values the source computes; their 2-decimal textual rendering is
not modelled. -/
inductive SvgElem where
  | line (x1 y1 x2 y2 : ℝ) (stroke : String) (dashed : Bool)
  | arc (x1 y1 radius : ℝ) (large_arc_flag sweep_flag : Bool) (x2 y2 : ℝ) (stroke : String)
  | circle (cx cy : ℝ) (r : ℚ) (fill : String)

/-- Whether an element is an arc `<path>`. -/
def SvgElem.isArc : SvgElem → Bool
  | .arc _ _ _ _ _ _ _ _ => true
  | _ => false

/-- The radius of an arc element (0 for non-arcs). -/
def SvgElem.radius : SvgElem → ℝ
  | .arc _ _ r _ _ _ _ _ => r
  | _ => 0

/-- The large-arc flag of an arc element (false for non-arcs). -/
def SvgElem.largeArc : SvgElem → Bool
  | .arc _ _ _ la _ _ _ _ => la
  | _ => false

/-- The sweep flag of an arc element (false for non-arcs). -/
def SvgElem.sweepFlag : SvgElem → Bool
  | .arc _ _ _ _ sw _ _ _ => sw
  | _ => false

/-- The structured result of `get_svg`: requested canvas size, whether the
white background `<rect>` is present, and the drawing elements in order. -/
structure SvgDoc where
  width : ℚ
  height : ℚ
  hasBackground : Bool
  elems : List SvgElem

/-- The x-axis bound candidates one segment contributes: both endpoints,
and for arcs also the full circle `center_x ± radius` (radius from the
i/j offsets only). -/
noncomputable def segXCands (move : Segment) : List ℝ :=
  [(move.start.x : ℝ), (move.end_.x : ℝ)] ++
    (match move.type with
     | MoveType.arc_cw | MoveType.arc_ccw =>
         let co := move.center_offset.getD ⟨0, 0, 0⟩
         let center_x := (move.start.x : ℝ) + (co.i : ℝ)
         let radius := Real.sqrt ((co.i : ℝ) ^ 2 + (co.j : ℝ) ^ 2)
         [center_x - radius, center_x + radius]
     | _ => [])

/-- The y-axis bound candidates one segment contributes. -/
noncomputable def segYCands (move : Segment) : List ℝ :=
  [(move.start.y : ℝ), (move.end_.y : ℝ)] ++
    (match move.type with
     | MoveType.arc_cw | MoveType.arc_ccw =>
         let co := move.center_offset.getD ⟨0, 0, 0⟩
         let center_y := (move.start.y : ℝ) + (co.j : ℝ)
         let radius := Real.sqrt ((co.i : ℝ) ^ 2 + (co.j : ℝ) ^ 2)
         [center_y - radius, center_y + radius]
     | _ => [])

/-- Minimum of a list of reals (the source folds `min` starting from
`inf`, and always over a nonempty candidate list). -/
noncomputable def minOfList : List ℝ → ℝ
  | [] => 0
  | x :: xs => xs.foldl min x

/-- Maximum of a list of reals (the source folds `max` starting from
`-inf`). -/
noncomputable def maxOfList : List ℝ → ℝ
  | [] => 0
  | x :: xs => xs.foldl max x

/-- `min_x` of the bounds loop of `get_svg`. -/
noncomputable def pathMinX (hist : List Segment) : ℝ :=
  minOfList (hist.map segXCands).flatten

/-- `max_x` of the bounds loop of `get_svg`. -/
noncomputable def pathMaxX (hist : List Segment) : ℝ :=
  maxOfList (hist.map segXCands).flatten

/-- `min_y` of the bounds loop of `get_svg`. -/
noncomputable def pathMinY (hist : List Segment) : ℝ :=
  minOfList (hist.map segYCands).flatten

/-- `max_y` of the bounds loop of `get_svg`. -/
noncomputable def pathMaxY (hist : List Segment) : ℝ :=
  maxOfList (hist.map segYCands).flatten

/-- The uniform scale factor of `get_svg`: degenerate extents are replaced
by 1, then `min(drawable_width / path_width, drawable_height / path_height)`. -/
noncomputable def pathScale (hist : List Segment) (width height margin : ℚ) : ℝ :=
  let path_width := pathMaxX hist - pathMinX hist
  let path_height := pathMaxY hist - pathMinY hist
  let path_width := if path_width = 0 then 1 else path_width
  let path_height := if path_height = 0 then 1 else path_height
  let drawable_width := (width : ℝ) - 2 * (margin : ℝ)
  let drawable_height := (height : ℝ) - 2 * (margin : ℝ)
  min (drawable_width / path_width) (drawable_height / path_height)

/-- `transform_x` of `get_svg`. -/
noncomputable def transform_x (min_x scale : ℝ) (margin : ℚ) (x : ℝ) : ℝ :=
  (margin : ℝ) + (x - min_x) * scale

/-- `transform_y` of `get_svg` (vertical axis flipped). -/
noncomputable def transform_y (min_y scale : ℝ) (height margin : ℚ) (y : ℝ) : ℝ :=
  (height : ℝ) - (margin : ℝ) - (y - min_y) * scale

/-- The drawing element `get_svg` emits for one segment of the log. -/
noncomputable def segElem (min_x min_y scale : ℝ) (height margin : ℚ) (move : Segment) : SvgElem :=
  let x1 := transform_x min_x scale margin (move.start.x : ℝ)
  let y1 := transform_y min_y scale height margin (move.start.y : ℝ)
  let x2 := transform_x min_x scale margin (move.end_.x : ℝ)
  let y2 := transform_y min_y scale height margin (move.end_.y : ℝ)
  match move.type with
  | MoveType.rapid => SvgElem.line x1 y1 x2 y2 "#cccccc" true
  | MoveType.arc_cw | MoveType.arc_ccw =>
      let co := move.center_offset.getD ⟨0, 0, 0⟩
      let center_x := (move.start.x : ℝ) + (co.i : ℝ)
      let center_y := (move.start.y : ℝ) + (co.j : ℝ)
      let radius := Real.sqrt ((co.i : ℝ) ^ 2 + (co.j : ℝ) ^ 2) * scale
      let start_angle := atan2 ((move.start.y : ℝ) - center_y) ((move.start.x : ℝ) - center_x)
      let end_angle := atan2 ((move.end_.y : ℝ) - center_y) ((move.end_.x : ℝ) - center_x)
      let sweep_flag := decide (move.type = MoveType.arc_cw)
      let angle_diff :=
        if move.type = MoveType.arc_cw then start_angle - end_angle else end_angle - start_angle
      let angle_diff := normalizeAngle angle_diff
      let large_arc_flag := decide (angle_diff > Real.pi)
      let color := if move.end_.z < 0 then "#0066cc" else "#00cc66"
      SvgElem.arc x1 y1 radius large_arc_flag sweep_flag x2 y2 color
  | MoveType.linear =>
      let color := if move.end_.z < 0 then "#0066cc" else "#00cc66"
      SvgElem.line x1 y1 x2 y2 color false

/-- `get_svg` over a segment log: empty log gives the bare canvas with no
background rectangle and no elements; otherwise one element per segment in
log order followed by the green start marker and the red end marker. -/
noncomputable def get_svg_doc (hist : List Segment) (width height margin : ℚ) : SvgDoc :=
  match hist with
  | [] => { width := width, height := height, hasBackground := false, elems := [] }
  | first :: rest =>
      let min_x := pathMinX (first :: rest)
      let min_y := pathMinY (first :: rest)
      let scale := pathScale (first :: rest) width height margin
      let last := (first :: rest).getLast (List.cons_ne_nil first rest)
      { width := width, height := height, hasBackground := true,
        elems :=
          (first :: rest).map (segElem min_x min_y scale height margin) ++
          [SvgElem.circle (transform_x min_x scale margin (first.start.x : ℝ))
              (transform_y min_y scale height margin (first.start.y : ℝ)) 5 "green",
           SvgElem.circle (transform_x min_x scale margin (last.end_.x : ℝ))
              (transform_y min_y scale height margin (last.end_.y : ℝ)) 5 "red"] }

/-- `get_svg(width, height, margin)` as a method on the generator state. -/
noncomputable def GCodeGenerator.get_svg (g : GCodeGenerator) (width height margin : ℚ) : SvgDoc :=
  get_svg_doc g.path_history width height margin

/-- Spec wording for the large-arc rule: "the unsigned angular span
between start and end (measured around the arc's center,
direction-corrected per clockwise/counterclockwise, normalized into
[0, 2π))". -/
noncomputable def specAngularSpan (move : Segment) : ℝ :=
  let co := move.center_offset.getD ⟨0, 0, 0⟩
  let center_x := (move.start.x : ℝ) + (co.i : ℝ)
  let center_y := (move.start.y : ℝ) + (co.j : ℝ)
  let start_angle := atan2 ((move.start.y : ℝ) - center_y) ((move.start.x : ℝ) - center_x)
  let end_angle := atan2 ((move.end_.y : ℝ) - center_y) ((move.end_.x : ℝ) - center_x)
  normalizeAngle
    (if move.type = MoveType.arc_cw then start_angle - end_angle else end_angle - start_angle)

/-! ## Helper lemmas -/

lemma joinLinesSpec_head_append (x y : String) (l : List String) :
    joinLinesSpec ((x ++ y) :: l) = x ++ joinLinesSpec (y :: l) := by
  cases l with
  | nil => rfl
  | cons d t => simp [joinLinesSpec, String.append_assoc]

lemma intercalate_go_spec (acc : String) (l : List String) :
    String.intercalate.go acc "\n" l = joinLinesSpec (acc :: l) := by
  induction l generalizing acc with
  | nil => rfl
  | cons a as ih =>
      show String.intercalate.go (acc ++ "\n" ++ a) "\n" as = joinLinesSpec (acc :: a :: as)
      rw [ih (acc ++ "\n" ++ a), joinLinesSpec_head_append]
      rfl

lemma chained_append_singleton {p q : MachinePosition} {l : List Segment}
    (h : chained p l q) (s : Segment) (hs : s.start = q) :
    chained p (l ++ [s]) s.end_ := by
  induction l generalizing p with
  | nil =>
      have hpq : p = q := h
      exact ⟨by rw [hs, hpq], rfl⟩
  | cons a t ih => exact ⟨h.1, ih h.2⟩

lemma applyOp_inv {g : GCodeGenerator} (h : EmitterInv g) (op : Op) :
    EmitterInv (applyOp g op) := by
  cases op with
  | add_comment t =>
      simp only [applyOp, GCodeGenerator.add_comment]
      split <;> exact h
  | set_units_metric => exact h
  | set_units_imperial => exact h
  | set_absolute_positioning => exact h
  | set_relative_positioning => exact h
  | home_all_axes => exact h
  | rapid_move x y z =>
      cases x <;> cases y <;> cases z <;>
        first
          | exact h
          | exact chained_append_singleton h _ rfl
  | linear_move x y z f =>
      cases x <;> cases y <;> cases z <;> cases f <;>
        first
          | exact h
          | exact chained_append_singleton h _ rfl
  | arc_cw x y z i j k f =>
      cases x <;> cases y <;> cases z <;> cases i <;> cases j <;> cases k <;> cases f <;>
        first
          | exact h
          | exact chained_append_singleton h _ rfl
  | arc_ccw x y z i j k f =>
      cases x <;> cases y <;> cases z <;> cases i <;> cases j <;> cases k <;> cases f <;>
        first
          | exact h
          | exact chained_append_singleton h _ rfl
  | spindle_on_cw r => cases r <;> exact h
  | spindle_on_ccw r => cases r <;> exact h
  | spindle_off => exact h
  | dwell s => exact h
  | program_end => exact h
  | clear => exact rfl

lemma run_inv (ops : List Op) {g : GCodeGenerator} (h : EmitterInv g) :
    EmitterInv (run ops g) := by
  induction ops generalizing g with
  | nil => exact h
  | cons op rest ih => exact ih (applyOp_inv h op)

lemma chained_consecutive {l : List Segment} :
    ∀ {p q : MachinePosition}, chained p l q →
      ∀ (n : Nat) (a b : Segment), l[n]? = some a → l[n + 1]? = some b →
        b.start = a.end_ := by
  induction l with
  | nil => intro p q _ n a b ha _; simp at ha
  | cons s t ih =>
      intro p q h n a b ha hb
      cases n with
      | zero =>
          have hsa : s = a := by simpa using ha
          cases t with
          | nil => simp at hb
          | cons r u =>
              have hrb : r = b := by simpa using hb
              rw [← hsa, ← hrb]
              exact h.2.1
      | succ m => exact ih h.2 m a b (by simpa using ha) (by simpa using hb)

lemma chained_first {l : List Segment} {p q : MachinePosition} (h : chained p l q)
    (a : Segment) (ha : l[0]? = some a) : a.start = p := by
  cases l with
  | nil => simp at ha
  | cons s t =>
      have hsa : s = a := by simpa using ha
      rw [← hsa]
      exact h.1

/-! ## Claim theorems -/

/-- C1 (amended): a `linear_move` call that provides `feed_rate` but none
of x, y, z appends exactly one instruction line AND exactly one degenerate
linear `MotionSegment` (start = end = current position); the position is
unchanged.  (The claim's "no MotionSegment" part is false: the feed token
makes `coords` nonempty, and the segment append is guarded by `coords`
alone.) -/
theorem linear_move_feed_only_appends_line_and_segment (g : GCodeGenerator) (f : ℚ) :
    (∃ line, (g.linear_move none none none (some f)).commands = g.commands ++ [line]) ∧
    (g.linear_move none none none (some f)).path_history =
      g.path_history ++
        [{ type := MoveType.linear, start := g.current_position,
           end_ := g.current_position, center_offset := none }] ∧
    (g.linear_move none none none (some f)).current_position = g.current_position :=
  ⟨⟨_, rfl⟩, rfl, rfl⟩

/-- C1 counterexample: on a fresh generator, a feed-rate-only
`linear_move(feed_rate=500)` does append a `MotionSegment`, contradicting
the claim that the segment log stays unchanged. -/
theorem linear_move_feed_only_appends_a_segment_cex :
    ¬ ((GCodeGenerator.init.linear_move none none none (some 500)).path_history =
        GCodeGenerator.init.path_history) := by
  decide

/-- C4: every motion call overwrites exactly the provided axes of
`current_position` and leaves the others unchanged; the i/j/k offsets and
the feed rate never change the position. -/
theorem motion_calls_update_only_provided_axes (g : GCodeGenerator)
    (x y z i j k f : Option ℚ) :
    (g.rapid_move x y z).current_position =
      ⟨x.getD g.current_position.x, y.getD g.current_position.y,
       z.getD g.current_position.z⟩ ∧
    (g.linear_move x y z f).current_position =
      ⟨x.getD g.current_position.x, y.getD g.current_position.y,
       z.getD g.current_position.z⟩ ∧
    (g.arc_cw x y z i j k f).current_position =
      ⟨x.getD g.current_position.x, y.getD g.current_position.y,
       z.getD g.current_position.z⟩ ∧
    (g.arc_ccw x y z i j k f).current_position =
      ⟨x.getD g.current_position.x, y.getD g.current_position.y,
       z.getD g.current_position.z⟩ := by
  refine ⟨?_, ?_, ?_, ?_⟩
  · cases x <;> cases y <;> cases z <;> rfl
  · cases x <;> cases y <;> cases z <;> cases f <;> rfl
  · cases x <;> cases y <;> cases z <;> cases i <;> cases j <;> cases k <;> cases f <;> rfl
  · cases x <;> cases y <;> cases z <;> cases i <;> cases j <;> cases k <;> cases f <;> rfl

/-- C6: `rapid_move` with no axis, and `linear_move` with no axis and no
feed rate, are complete no-ops: no instruction, no segment, position
unchanged. -/
theorem no_axis_motion_calls_are_noops (g : GCodeGenerator) :
    g.rapid_move none none none = g ∧ g.linear_move none none none none = g :=
  ⟨rfl, rfl⟩

/-- C8: `get_gcode` returns the instruction log joined in append order
with exactly one newline between consecutive instructions (`joinLinesSpec`
is that specification, written recursively); as a pure function of the
state it has no side effects and repeated calls agree. -/
theorem get_gcode_joins_commands_with_newlines (g : GCodeGenerator) :
    g.get_gcode = joinLinesSpec g.commands := by
  rcases hc : g.commands with _ | ⟨a, as⟩
  · unfold GCodeGenerator.get_gcode
    rw [hc]
    rfl
  · unfold GCodeGenerator.get_gcode
    rw [hc]
    exact intercalate_go_spec a as

/-- C9: for every call sequence started from a fresh generator, the
segment log chains: each segment starts where the previous one ended, and
the first recorded segment starts at the origin. -/
theorem path_history_forms_contiguous_chain (ops : List Op) :
    (∀ (n : Nat) (a b : Segment),
        (run ops GCodeGenerator.init).path_history[n]? = some a →
        (run ops GCodeGenerator.init).path_history[n + 1]? = some b →
        b.start = a.end_) ∧
    (∀ a : Segment,
        (run ops GCodeGenerator.init).path_history[0]? = some a →
        a.start = ⟨0, 0, 0⟩) := by
  have h := run_inv ops (show EmitterInv GCodeGenerator.init from rfl)
  exact ⟨fun n a b ha hb => chained_consecutive h n a b ha hb,
         fun a ha => chained_first h a ha⟩

/-- Witness for C9 at the concrete two-move program `demoOps`. -/
theorem path_history_forms_contiguous_chain_witness :
    (run demoOps GCodeGenerator.init).path_history[0]? =
        some { type := MoveType.rapid, start := ⟨0, 0, 0⟩, end_ := ⟨1, 2, 0⟩,
               center_offset := none } ∧
    (run demoOps GCodeGenerator.init).path_history[1]? =
        some { type := MoveType.linear, start := ⟨1, 2, 0⟩, end_ := ⟨3, 2, 0⟩,
               center_offset := none } ∧
    ({ type := MoveType.linear, start := ⟨1, 2, 0⟩, end_ := ⟨3, 2, 0⟩,
       center_offset := none } : Segment).start =
      ({ type := MoveType.rapid, start := ⟨0, 0, 0⟩, end_ := ⟨1, 2, 0⟩,
         center_offset := none } : Segment).end_ :=
  ⟨by decide, by decide,
   (path_history_forms_contiguous_chain demoOps).1 0 _ _ (by decide) (by decide)⟩

/-- C7: `clear()` restores exactly the freshly-constructed state, so every
subsequent query — further runs, `get_gcode`, `get_svg`, the position and
both logs — agrees with a fresh generator. -/
theorem clear_resets_to_fresh_state (g : GCodeGenerator) (ops : List Op) (w h m : ℚ) :
    g.clear = GCodeGenerator.init ∧
    run ops g.clear = run ops GCodeGenerator.init ∧
    (g.clear).get_gcode = GCodeGenerator.init.get_gcode ∧
    (g.clear).get_svg w h m = GCodeGenerator.init.get_svg w h m ∧
    (g.clear).current_position = ⟨0, 0, 0⟩ ∧
    (g.clear).commands = [] ∧
    (g.clear).path_history = [] :=
  ⟨rfl, rfl, rfl, rfl, rfl, rfl, rfl⟩

/-- C10: the emitter and renderer are deterministic — two generators that
ran the same call sequence from a fresh state produce equal `get_gcode`
strings and equal `get_svg` documents for the same canvas parameters. -/
theorem emitter_and_renderer_are_deterministic (ops : List Op) (w h m : ℚ)
    (g1 g2 : GCodeGenerator) (h1 : g1 = run ops GCodeGenerator.init)
    (h2 : g2 = run ops GCodeGenerator.init) :
    g1.get_gcode = g2.get_gcode ∧ g1.get_svg w h m = g2.get_svg w h m := by
  subst h1
  subst h2
  exact ⟨rfl, rfl⟩

/-- Witness for C10 at the concrete program `demoOps`. -/
theorem emitter_and_renderer_are_deterministic_witness :
    run demoOps GCodeGenerator.init = run demoOps GCodeGenerator.init ∧
    ((run demoOps GCodeGenerator.init).get_gcode =
        (run demoOps GCodeGenerator.init).get_gcode ∧
      (run demoOps GCodeGenerator.init).get_svg 800 600 50 =
        (run demoOps GCodeGenerator.init).get_svg 800 600 50) :=
  ⟨rfl, emitter_and_renderer_are_deterministic demoOps 800 600 50 _ _ rfl rfl⟩

/-- C2 (amended): on an empty segment log, `get_svg` returns a document
sized exactly to the requested width and height with NO drawing
primitives — and also no background rectangle (the claim asserts one is
present, but the empty branch returns a bare `<svg>` element). -/
theorem get_svg_empty_log_bare_canvas (g : GCodeGenerator) (w h m : ℚ)
    (hempty : g.path_history = []) :
    (g.get_svg w h m).width = w ∧ (g.get_svg w h m).height = h ∧
    (g.get_svg w h m).hasBackground = false ∧ (g.get_svg w h m).elems = [] := by
  unfold GCodeGenerator.get_svg
  rw [hempty]
  exact ⟨rfl, rfl, rfl, rfl⟩

/-- Witness for C2 on a fresh generator at canvas 800 × 600, margin 50. -/
theorem get_svg_empty_log_bare_canvas_witness :
    GCodeGenerator.init.path_history = [] ∧
    ((GCodeGenerator.init.get_svg 800 600 50).width = 800 ∧
      (GCodeGenerator.init.get_svg 800 600 50).height = 600 ∧
      (GCodeGenerator.init.get_svg 800 600 50).hasBackground = false ∧
      (GCodeGenerator.init.get_svg 800 600 50).elems = []) :=
  ⟨rfl, get_svg_empty_log_bare_canvas GCodeGenerator.init 800 600 50 rfl⟩

/-- C2 counterexample: the claim says the empty-log document contains a
background rectangle; on a fresh generator it does not. -/
theorem get_svg_empty_log_background_cex :
    ¬ ((GCodeGenerator.init.get_svg 800 600 50).hasBackground = true) := by
  intro hc
  exact Bool.noConfusion hc

lemma get_svg_doc_elem (hist : List Segment) (w h m : ℚ) (n : Nat) (hn : n < hist.length) :
    (get_svg_doc hist w h m).elems[n]? =
      some (segElem (pathMinX hist) (pathMinY hist) (pathScale hist w h m) h m hist[n]) := by
  cases hist with
  | nil => exact absurd hn (Nat.not_lt_zero n)
  | cons first rest =>
      simp only [get_svg_doc]
      rw [List.getElem?_append_left (by simpa using hn), List.getElem?_map,
        List.getElem?_eq_getElem hn]
      rfl

/-- C3 (amended): for every arc segment in the log, the radius of the
emitted arc primitive equals the magnitude of the XY projection (i, j) of
the segment's center-offset vector times the computed scale factor; the k
component is ignored by the renderer. -/
theorem arc_element_radius_scales_ij_magnitude (hist : List Segment) (w h m : ℚ)
    (n : Nat) (hn : n < hist.length) (co : CenterOffset)
    (hco : hist[n].center_offset = some co)
    (harc : hist[n].type = MoveType.arc_cw ∨ hist[n].type = MoveType.arc_ccw) :
    ((get_svg_doc hist w h m).elems[n]?.getD (SvgElem.line 0 0 0 0 "" false)).radius =
      Real.sqrt ((co.i : ℝ) ^ 2 + (co.j : ℝ) ^ 2) * pathScale hist w h m := by
  rw [get_svg_doc_elem hist w h m n hn]
  rcases harc with ht | ht <;>
    simp [segElem, ht, hco, SvgElem.radius]

/-- Witness for C3 (amended) at the concrete arc `arcDemoSeg`. -/
theorem arc_element_radius_scales_ij_magnitude_witness :
    (0 < ([arcDemoSeg] : List Segment).length ∧
      arcDemoSeg.center_offset = some ⟨3, 0, 4⟩ ∧
      (arcDemoSeg.type = MoveType.arc_cw ∨ arcDemoSeg.type = MoveType.arc_ccw)) ∧
    ((get_svg_doc [arcDemoSeg] 800 600 50).elems[0]?.getD
        (SvgElem.line 0 0 0 0 "" false)).radius =
      Real.sqrt (((3 : ℚ) : ℝ) ^ 2 + ((0 : ℚ) : ℝ) ^ 2) *
        pathScale [arcDemoSeg] 800 600 50 :=
  ⟨⟨by decide, rfl, Or.inl rfl⟩,
   arc_element_radius_scales_ij_magnitude [arcDemoSeg] 800 600 50 0 (by decide)
     ⟨3, 0, 4⟩ rfl (Or.inl rfl)⟩

lemma arcDemo_radius :
    ((get_svg_doc [arcDemoSeg] 800 600 50).elems[0]?.getD
        (SvgElem.line 0 0 0 0 "" false)).radius
      = 3 * pathScale [arcDemoSeg] 800 600 50 := by
  rw [get_svg_doc_elem [arcDemoSeg] 800 600 50 0 (by decide)]
  simp [segElem, arcDemoSeg, SvgElem.radius]

lemma arcDemo_pathScale : pathScale [arcDemoSeg] 800 600 50 = 500 / 6 := by
  simp [pathScale, pathMinX, pathMaxX, pathMinY, pathMaxY, segXCands, segYCands,
    arcDemoSeg, minOfList, maxOfList]
  norm_num [min_def]

/-- C3 counterexample: for the arc `arcDemoSeg` with center offsets
(i, j, k) = (3, 0, 4) on an 800 × 600 canvas with margin 50, the emitted
radius is 3 × scale = 250, not |(i, j, k)| × scale = 5 × scale as the
claim requires. -/
theorem arc_element_radius_uses_ijk_cex :
    ¬ (((get_svg_doc [arcDemoSeg] 800 600 50).elems[0]?.getD
          (SvgElem.line 0 0 0 0 "" false)).radius =
        Real.sqrt ((3 : ℝ) ^ 2 + (0 : ℝ) ^ 2 + (4 : ℝ) ^ 2) *
          pathScale [arcDemoSeg] 800 600 50) := by
  rw [arcDemo_radius, arcDemo_pathScale]
  have hs : Real.sqrt ((3 : ℝ) ^ 2 + (0 : ℝ) ^ 2 + (4 : ℝ) ^ 2) = 5 := by
    rw [show (3 : ℝ) ^ 2 + (0 : ℝ) ^ 2 + (4 : ℝ) ^ 2 = (5 : ℝ) ^ 2 by norm_num]
    exact Real.sqrt_sq (by norm_num)
  rw [hs]
  norm_num

lemma two_pi_pos : (0 : ℝ) < 2 * Real.pi := by
  have := Real.pi_pos
  linarith

lemma atan2_zero_one : atan2 0 1 = 0 := by
  unfold atan2
  have h1 : (⟨1, 0⟩ : ℂ) = 1 := by
    apply Complex.ext <;> simp
  rw [h1, Complex.arg_one]

lemma atan2_one_zero : atan2 1 0 = Real.pi / 2 := by
  unfold atan2
  have h1 : (⟨0, 1⟩ : ℂ) = Complex.I := by
    apply Complex.ext <;> simp
  rw [h1, Complex.arg_I]

lemma normalizeAngle_of_neg (a : ℝ) (h1 : a < 0) (h2 : -(2 * Real.pi) ≤ a) :
    normalizeAngle a = a + 2 * Real.pi := by
  unfold normalizeAngle
  rw [if_pos h1]
  have hfloor : ⌊a / (2 * Real.pi)⌋ = -1 := by
    rw [Int.floor_eq_iff]
    constructor
    · push_cast
      rw [neg_le, ← neg_div]
      rw [div_le_one two_pi_pos]
      linarith
    · push_cast
      have : a / (2 * Real.pi) < 0 := div_neg_of_neg_of_pos h1 two_pi_pos
      linarith
  rw [hfloor]
  push_cast
  ring

lemma specAngularSpan_arcQuarterSeg : specAngularSpan arcQuarterSeg = 3 * Real.pi / 2 := by
  have hpi := Real.pi_pos
  simp only [specAngularSpan, arcQuarterSeg]
  norm_num
  rw [atan2_zero_one, atan2_one_zero]
  rw [show (0 : ℝ) - Real.pi / 2 = -(Real.pi / 2) by ring]
  rw [normalizeAngle_of_neg _ (by linarith) (by linarith)]
  ring

/-- C5: for every arc segment, the large-arc flag of the emitted arc
primitive is 1 exactly when the unsigned angular span between start and
end around the arc's center — direction-corrected for cw/ccw and
normalized into [0, 2π) (`specAngularSpan`) — exceeds π; in particular a
span of 3π/2 forces flag 1 and a span of π/4 forces flag 0. -/
theorem arc_large_arc_flag_iff_span_exceeds_pi (hist : List Segment) (w h m : ℚ)
    (n : Nat) (hn : n < hist.length)
    (harc : hist[n].type = MoveType.arc_cw ∨ hist[n].type = MoveType.arc_ccw) :
    (((get_svg_doc hist w h m).elems[n]?.getD
          (SvgElem.line 0 0 0 0 "" false)).largeArc = true ↔
        Real.pi < specAngularSpan hist[n]) ∧
    (specAngularSpan hist[n] = 3 * Real.pi / 2 →
      ((get_svg_doc hist w h m).elems[n]?.getD
          (SvgElem.line 0 0 0 0 "" false)).largeArc = true) ∧
    (specAngularSpan hist[n] = Real.pi / 4 →
      ((get_svg_doc hist w h m).elems[n]?.getD
          (SvgElem.line 0 0 0 0 "" false)).largeArc = false) := by
  have hmain : ((get_svg_doc hist w h m).elems[n]?.getD
          (SvgElem.line 0 0 0 0 "" false)).largeArc = true ↔
        Real.pi < specAngularSpan hist[n] := by
    rw [get_svg_doc_elem hist w h m n hn]
    rcases harc with ht | ht <;>
      simp [segElem, ht, SvgElem.largeArc, specAngularSpan]
  have hpi := Real.pi_pos
  refine ⟨hmain, ?_, ?_⟩
  · intro hsp
    apply hmain.mpr
    rw [hsp]
    linarith
  · intro hsp
    cases hbool : ((get_svg_doc hist w h m).elems[n]?.getD
        (SvgElem.line 0 0 0 0 "" false)).largeArc with
    | false => rfl
    | true =>
        exfalso
        have hlt := hmain.mp hbool
        rw [hsp] at hlt
        linarith

/-- Witness for C5 at the concrete clockwise arc `arcQuarterSeg`, whose
direction-corrected span is 3π/2: the large-arc flag is set. -/
theorem arc_large_arc_flag_iff_span_exceeds_pi_witness :
    (0 < ([arcQuarterSeg] : List Segment).length ∧
      (arcQuarterSeg.type = MoveType.arc_cw ∨ arcQuarterSeg.type = MoveType.arc_ccw)) ∧
    (((get_svg_doc [arcQuarterSeg] 800 600 50).elems[0]?.getD
          (SvgElem.line 0 0 0 0 "" false)).largeArc = true ↔
        Real.pi < specAngularSpan arcQuarterSeg) ∧
    ((get_svg_doc [arcQuarterSeg] 800 600 50).elems[0]?.getD
        (SvgElem.line 0 0 0 0 "" false)).largeArc = true := by
  have hiff := (arc_large_arc_flag_iff_span_exceeds_pi [arcQuarterSeg] 800 600 50 0
      (by decide) (Or.inl rfl)).1
  refine ⟨⟨by decide, Or.inl rfl⟩, hiff, ?_⟩
  apply hiff.mpr
  rw [show specAngularSpan ([arcQuarterSeg] : List Segment)[0] =
      specAngularSpan arcQuarterSeg from rfl]
  rw [specAngularSpan_arcQuarterSeg]
  linarith [Real.pi_pos]
